import Mathlib

/-!
Verification development for the Direktive.ai Home Assistant integration
(`custom_components/direktive`).  The Python source is shallowly embedded:
pure data manipulation becomes Lean functions, the coordinator's polling
loop becomes a fuel-bounded loop over explicit state (the fuel is proved
sufficient, so the bound never fires on the real 380-second budget), and
external collaborators (the HTTP transport, the AES block cipher, JSON and
base64 codecs, the Home Assistant service registry) become parameters with
the interface properties the code relies on.
-/

namespace Direktive

/-- Attribute / service-data values carried around by the integration.
The code never computes with these values, it only copies them, so a small
closed vocabulary suffices. -/
inductive Value where
  | str (s : String)
  | int (n : Int)
  | listInt (l : List Int)
  | bool (b : Bool)
deriving DecidableEq

/-- Python truthiness of an optional string: `None` and `""` are falsy. -/
def optFalsy : Option String → Bool
  | none => true
  | some s => s = ""

/-! ## Coordinator data model (`coordinator.py`) -/

/-- Result of `GET /directive/stage/{id}` as read by `async_poll_directive`
(`coordinator.py` lines 87-92): the handler extracts exactly these five
keys with `.get`, each possibly absent. -/
structure StageInfo where
  stage : Option String
  stage_message : Option String
  message : Option String
  title : Option String
  status : Option String
deriving DecidableEq

/-- A directive entry of the shared collection `self.data["directives"]`.
Fields mirror the keys the coordinator reads and writes; `id` is optional
because the code reads it with `.get("id")`.  `messages` holds the
conversation turns (opaque here: the coordinator only copies them). -/
structure Directive where
  id : Option String
  creation_stage : Option String
  creation_message : Option String
  message : Option String
  title : Option String
  status : Option String
  discovery : Bool
  messages : List String
deriving DecidableEq

/-- Network events performed by the poll loop: a stage fetch (with the
iteration index) or the final full-directive fetch. -/
inductive PollEvent where
  | stageFetch (n : Nat)
  | directiveFetch
deriving DecidableEq

/-- The non-terminal-stage merge step of `async_poll_directive`
(`coordinator.py` lines 103-135).  Input is the current
`self.data["directives"]` when present (`none` models `self.data` falsy or
lacking the key, in which case the block is skipped).  Returns the new
collection together with the list of full snapshots published via
`async_set_updated_data`. -/
def pollMerge (directive_id : String) (info : StageInfo)
    (data : Option (List Directive)) :
    Option (List Directive) × List (List Directive) :=
  match data with
  | none => (none, [])
  | some original_directives =>
    let updated_directives := original_directives.map (fun d =>
      if d.id = some directive_id then
        { d with creation_stage := info.stage,
                 creation_message := info.stage_message,
                 status := info.status }
      else d)
    let directive_found := original_directives.any (fun d =>
      decide (d.id = some directive_id))
    let final :=
      if directive_found then updated_directives
      else updated_directives ++
        [{ id := some directive_id,
           creation_stage := info.stage,
           creation_message := info.stage_message,
           message := info.message,
           title := info.title,
           status := some "creating",
           discovery := false,
           messages := [] }]
    (some final, [final])

/-- Update the first element satisfying `p` (the Python timeout block
mutates in place the dict found by `next(...)`, i.e. the first match). -/
def updateFirst (p : α → Bool) (f : α → α) : List α → List α
  | [] => []
  | x :: xs => if p x then f x :: xs else x :: updateFirst p f xs

/-- The timeout block of `async_poll_directive` (`coordinator.py` lines
139-151): if the collection is present and contains a matching entry, mark
that (first matching) entry failed/timed-out/error and publish a snapshot;
otherwise nothing is mutated and nothing is published. -/
def pollTimeout (directive_id : String)
    (data : Option (List Directive)) :
    Option (List Directive) × List (List Directive) :=
  match data with
  | none => (none, [])
  | some directives =>
    if directives.any (fun d => decide (d.id = some directive_id)) then
      let updated := updateFirst (fun d => decide (d.id = some directive_id))
        (fun d =>
          { d with creation_stage := some "failed",
                   creation_message :=
                     some "Directive creation timed out after 3 minutes.",
                   status := some "error" })
        directives
      (some updated, [updated])
    else
      (some directives, [])

/-- Outcome of `async_get_directive` (`coordinator.py` lines 155-213),
200-response path, with the API's `"directive"` value passed in as
`apiDirective` (`none` models a response missing the key, which returns
`None` without mutating).  When the collection is present the fetched
record inherits the existing entry's `messages`, replaces every entry with
the id, is appended, and a snapshot is published; when absent the sensor
fallback runs (no collection mutation, no snapshot). -/
structure GetDirOut where
  result : Option Directive
  state : Option (List Directive)
  pubs : List (List Directive)
deriving DecidableEq

def async_get_directive (directive_id : String)
    (apiDirective : Option Directive)
    (data : Option (List Directive)) : GetDirOut :=
  match apiDirective with
  | none => ⟨none, data, []⟩
  | some directive_data =>
    match data with
    | some directives =>
      let msgs := (((directives.find? (fun d =>
          decide (d.id = some directive_id))).map Directive.messages).getD [])
      let directive_data := { directive_data with messages := msgs }
      let updated_directives :=
        (directives.filter (fun d => !decide (d.id = some directive_id)))
          ++ [directive_data]
      ⟨some directive_data, some updated_directives, [updated_directives]⟩
    | none => ⟨some directive_data, none, []⟩

/-- Full observable outcome of one run of `async_poll_directive`:
returned value, final collection, network events, published snapshots and
the elapsed wall-clock value at which the loop condition last failed or
the terminal return happened. -/
structure PollOut where
  result : Option Directive
  state : Option (List Directive)
  events : List PollEvent
  pubs : List (List Directive)
  elapsedAtExit : Nat
deriving DecidableEq

/-- The body of `async_poll_directive` (`coordinator.py` lines 80-153).
`stages n` is the parsed response of the `n`-th stage fetch, `dur n` the
wall-clock seconds that iteration `n` takes beyond the fixed
`asyncio.sleep(10)`, and `apiDirective` the `"directive"` value of the
final full fetch.  The loop runs while `elapsed < 380`; `fuel` bounds the
number of iterations and is proved sufficient below (each iteration adds
at least 10 seconds). -/
def async_poll_directive_loop (stages : Nat → StageInfo) (dur : Nat → Nat)
    (apiDirective : Option Directive) (directive_id : String) :
    Nat → Nat → Nat → Option (List Directive) → Option PollOut
  | fuel, n, elapsed, data =>
    if elapsed < 380 then
      match fuel with
      | 0 => none
      | fuel + 1 =>
        let info := stages n
        if info.stage = some "completed" ∨ info.stage = some "failed" then
          let g := async_get_directive directive_id apiDirective data
          some ⟨g.result, g.state, [.stageFetch n, .directiveFetch],
                g.pubs, elapsed⟩
        else
          match async_poll_directive_loop stages dur apiDirective directive_id
              fuel (n + 1) (elapsed + dur n + 10)
              (pollMerge directive_id info data).1 with
          | none => none
          | some rest =>
            some ⟨rest.result, rest.state, .stageFetch n :: rest.events,
                  (pollMerge directive_id info data).2 ++ rest.pubs,
                  rest.elapsedAtExit⟩
    else
      let t := pollTimeout directive_id data
      some ⟨none, t.1, [], t.2, elapsed⟩

/-- `async_poll_directive` started at elapsed time 0.  38 iterations of at
least 10 seconds always reach the 380-second budget, so fuel 38 never runs
out (theorem `async_poll_directive_total`). -/
def async_poll_directive (stages : Nat → StageInfo) (dur : Nat → Nat)
    (apiDirective : Option Directive) (directive_id : String)
    (data : Option (List Directive)) : Option PollOut :=
  async_poll_directive_loop stages dur apiDirective directive_id 38 0 0 data

/-- Fuel sufficiency: the loop never exhausts its fuel when
`380 ≤ elapsed + 10 * fuel`. -/
theorem async_poll_directive_loop_total (stages : Nat → StageInfo)
    (dur : Nat → Nat) (apiDirective : Option Directive)
    (directive_id : String) :
    ∀ (fuel n elapsed : Nat) (data : Option (List Directive)),
      380 ≤ elapsed + 10 * fuel →
      (async_poll_directive_loop stages dur apiDirective directive_id
        fuel n elapsed data).isSome := by
  intro fuel
  induction fuel with
  | zero =>
    intro n elapsed data h
    rw [async_poll_directive_loop]
    have : ¬ elapsed < 380 := by omega
    simp [this]
  | succ fuel ih =>
    intro n elapsed data h
    rw [async_poll_directive_loop]
    by_cases hlt : elapsed < 380
    · simp only [hlt, if_true]
      by_cases hterm : (stages n).stage = some "completed" ∨
          (stages n).stage = some "failed"
      · simp [hterm]
      · simp only [hterm, if_false]
        have hrec := ih (n + 1) (elapsed + dur n + 10)
          (pollMerge directive_id (stages n) data).1 (by omega)
        match hmatch : async_poll_directive_loop stages dur apiDirective
            directive_id fuel (n + 1) (elapsed + dur n + 10)
            (pollMerge directive_id (stages n) data).1 with
        | none => rw [hmatch] at hrec; simp at hrec
        | some rest => simp
    · simp [hlt]

theorem async_poll_directive_total (stages : Nat → StageInfo)
    (dur : Nat → Nat) (apiDirective : Option Directive)
    (directive_id : String) (data : Option (List Directive)) :
    (async_poll_directive stages dur apiDirective directive_id data).isSome :=
  async_poll_directive_loop_total stages dur apiDirective directive_id
    38 0 0 data (by omega)

/-- When the collection is present, a merge step publishes exactly one
snapshot (the whole new collection) and the new collection always contains
an entry whose id is the polled one (either the updated existing entry or
the synthesized one). -/
theorem pollMerge_spec (directive_id : String) (info : StageInfo)
    (l : List Directive) :
    ∃ final, pollMerge directive_id info (some l) = (some final, [final]) ∧
      ∃ d ∈ final, d.id = some directive_id := by
  cases hf : l.any (fun d => decide (d.id = some directive_id)) with
  | true =>
    rcases List.any_eq_true.mp hf with ⟨d, hd, hdid⟩
    rw [decide_eq_true_eq] at hdid
    refine ⟨l.map (fun d =>
        if d.id = some directive_id then
          { d with
              creation_stage := info.stage,
              creation_message := info.stage_message,
              status := info.status }
        else d), ?_, ?_⟩
    · simp [pollMerge, hf]
    · refine ⟨{ d with
          creation_stage := info.stage,
          creation_message := info.stage_message,
          status := info.status }, ?_, hdid⟩
      exact List.mem_map.mpr ⟨d, hd, by simp [hdid]⟩
  | false =>
    refine ⟨l.map (fun d =>
        if d.id = some directive_id then
          { d with
              creation_stage := info.stage,
              creation_message := info.stage_message,
              status := info.status }
        else d) ++
        [{ id := some directive_id,
           creation_stage := info.stage,
           creation_message := info.stage_message,
           message := info.message,
           title := info.title,
           status := some "creating",
           discovery := false,
           messages := [] }], ?_, ?_⟩
    · simp [pollMerge, hf]
    · exact ⟨_, List.mem_append_right _ (List.mem_singleton.mpr rfl), rfl⟩

theorem updateFirst_mem_of_any (p : α → Bool) (f : α → α) :
    ∀ l : List α, l.any p = true →
      ∃ x ∈ l, p x = true ∧ f x ∈ updateFirst p f l
  | x :: xs, h => by
    by_cases hx : p x = true
    · exact ⟨x, List.mem_cons_self x xs, hx, by
        simp [updateFirst, hx]⟩
    · have hxs : xs.any p = true := by
        rcases List.any_eq_true.mp h with ⟨y, hy, hpy⟩
        rcases List.mem_cons.mp hy with rfl | hy'
        · exact absurd hpy hx
        · exact List.any_eq_true.mpr ⟨y, hy', hpy⟩
      rcases updateFirst_mem_of_any p f xs hxs with ⟨y, hy, hpy, hmem⟩
      refine ⟨y, List.mem_cons_of_mem x hy, hpy, ?_⟩
      simp only [updateFirst, if_neg hx]
      exact List.mem_cons_of_mem x hmem

/-- When the collection is present and contains a matching entry, the
timeout block marks it failed/timed-out/error (in place, first match) and
publishes the whole updated collection. -/
theorem pollTimeout_spec (directive_id : String) (l : List Directive)
    (h : ∃ d ∈ l, d.id = some directive_id) :
    ∃ l', pollTimeout directive_id (some l) = (some l', [l']) ∧
      ∃ d ∈ l', d.id = some directive_id ∧
        d.creation_stage = some "failed" ∧
        d.creation_message =
          some "Directive creation timed out after 3 minutes." ∧
        d.status = some "error" := by
  have hany : l.any (fun d => decide (d.id = some directive_id)) = true := by
    rcases h with ⟨d, hd, hdid⟩
    exact List.any_eq_true.mpr ⟨d, hd, decide_eq_true hdid⟩
  unfold pollTimeout
  simp only [hany, if_true]
  refine ⟨_, rfl, ?_⟩
  rcases updateFirst_mem_of_any
      (fun d => decide (d.id = some directive_id)) _ l hany with
    ⟨d, _, hpd, hmem⟩
  rw [decide_eq_true_eq] at hpd
  exact ⟨_, hmem, hpd, rfl, rfl, rfl⟩

/-- Invariant proof for the all-non-terminal run: once the (present)
collection contains a matching entry, the loop ends in the timeout branch
with the entry marked failed/error, having returned `none` at elapsed
time at least 380. -/
theorem poll_loop_all_pending (stages : Nat → StageInfo) (dur : Nat → Nat)
    (apiDirective : Option Directive) (directive_id : String)
    (hnt : ∀ k, (stages k).stage ≠ some "completed" ∧
                (stages k).stage ≠ some "failed") :
    ∀ (fuel n elapsed : Nat) (l : List Directive),
      380 ≤ elapsed + 10 * fuel →
      (∃ d ∈ l, d.id = some directive_id) →
      ∃ out, async_poll_directive_loop stages dur apiDirective directive_id
          fuel n elapsed (some l) = some out ∧
        out.result = none ∧ 380 ≤ out.elapsedAtExit ∧
        ∃ l', out.state = some l' ∧ ∃ d ∈ l', d.id = some directive_id ∧
          d.creation_stage = some "failed" ∧
          d.creation_message =
            some "Directive creation timed out after 3 minutes." ∧
          d.status = some "error" := by
  intro fuel
  induction fuel with
  | zero =>
    intro n elapsed l hfuel hmatch
    have hlt : ¬ elapsed < 380 := by omega
    rw [async_poll_directive_loop]
    simp only [hlt, if_false]
    rcases pollTimeout_spec directive_id l hmatch with ⟨l', hl', hd⟩
    refine ⟨_, rfl, rfl, (show (380:Nat) ≤ elapsed by omega), l', ?_, hd⟩
    simp [hl']
  | succ fuel ih =>
    intro n elapsed l hfuel hmatch
    by_cases hlt : elapsed < 380
    · rw [async_poll_directive_loop]
      simp only [hlt, if_true]
      have hcond : ¬ ((stages n).stage = some "completed" ∨
          (stages n).stage = some "failed") := by
        rcases hnt n with ⟨h1, h2⟩
        tauto
      simp only [hcond, if_false]
      rcases pollMerge_spec directive_id (stages n) l with
        ⟨final, hmerge, hfinal⟩
      rcases ih (n + 1) (elapsed + dur n + 10) final (by omega) hfinal with
        ⟨rest, hrest, hres, helapsed, hstate⟩
      rw [hmerge]
      simp only
      rw [hrest]
      exact ⟨_, rfl, hres, helapsed, hstate⟩
    · rw [async_poll_directive_loop]
      simp only [hlt, if_false]
      rcases pollTimeout_spec directive_id l hmatch with ⟨l', hl', hd⟩
      refine ⟨_, rfl, rfl, (show (380:Nat) ≤ elapsed by omega), l', ?_, hd⟩
      simp [hl']

/-- Variant of `poll_loop_all_pending` that does not assume a matching
entry yet: as long as one iteration is still to run (`elapsed < 380`),
the first merge synthesizes the entry if needed. -/
theorem poll_loop_all_pending_start (stages : Nat → StageInfo)
    (dur : Nat → Nat) (apiDirective : Option Directive)
    (directive_id : String)
    (hnt : ∀ k, (stages k).stage ≠ some "completed" ∧
                (stages k).stage ≠ some "failed") :
    ∀ (fuel n elapsed : Nat) (l : List Directive),
      380 ≤ elapsed + 10 * fuel → elapsed < 380 →
      ∃ out, async_poll_directive_loop stages dur apiDirective directive_id
          fuel n elapsed (some l) = some out ∧
        out.result = none ∧ 380 ≤ out.elapsedAtExit ∧
        ∃ l', out.state = some l' ∧ ∃ d ∈ l', d.id = some directive_id ∧
          d.creation_stage = some "failed" ∧
          d.creation_message =
            some "Directive creation timed out after 3 minutes." ∧
          d.status = some "error" := by
  intro fuel n elapsed l hfuel hlt
  match fuel with
  | 0 => omega
  | fuel + 1 =>
    rw [async_poll_directive_loop]
    simp only [hlt, if_true]
    have hcond : ¬ ((stages n).stage = some "completed" ∨
        (stages n).stage = some "failed") := by
      rcases hnt n with ⟨h1, h2⟩
      tauto
    simp only [hcond, if_false]
    rcases pollMerge_spec directive_id (stages n) l with ⟨final, hmerge, hfinal⟩
    rcases poll_loop_all_pending stages dur apiDirective directive_id hnt
        fuel (n + 1) (elapsed + dur n + 10) final (by omega) hfinal with
      ⟨rest, hrest, hres, helapsed, hstate⟩
    rw [hmerge]
    simp only
    rw [hrest]
    exact ⟨_, rfl, hres, helapsed, hstate⟩

/-- C1: if every stage fetch returns a non-terminal stage forever, then —
given the shared directive collection exists — the poll operation
terminates at or after 380 seconds of elapsed wall-clock time, returns
null, and the final collection contains an entry with the polled id whose
`creation_stage` is `"failed"`, whose `creation_message` indicates a
timeout, and whose `status` is `"error"` (the entry is the mutated
matching one when it existed, and otherwise the one synthesized during
polling, finalized as an error entry). -/
theorem claim_C1 (stages : Nat → StageInfo) (dur : Nat → Nat)
    (apiDirective : Option Directive) (directive_id : String)
    (l : List Directive)
    (hnt : ∀ k, (stages k).stage ≠ some "completed" ∧
                (stages k).stage ≠ some "failed") :
    ∃ out, async_poll_directive stages dur apiDirective directive_id
        (some l) = some out ∧
      out.result = none ∧ 380 ≤ out.elapsedAtExit ∧
      ∃ l', out.state = some l' ∧ ∃ d ∈ l', d.id = some directive_id ∧
        d.creation_stage = some "failed" ∧
        d.creation_message =
          some "Directive creation timed out after 3 minutes." ∧
        d.status = some "error" :=
  poll_loop_all_pending_start stages dur apiDirective directive_id hnt
    38 0 0 l (by omega) (by omega)

theorem claim_C1_witness :
    ∃ out, async_poll_directive
        (fun _ => ⟨some "pending", some "still working", none, none,
          some "creating"⟩)
        (fun _ => 0) none "d1" (some []) = some out ∧
      out.result = none ∧ 380 ≤ out.elapsedAtExit ∧
      ∃ l', out.state = some l' ∧ ∃ d ∈ l', d.id = some "d1" ∧
        d.creation_stage = some "failed" ∧
        d.creation_message =
          some "Directive creation timed out after 3 minutes." ∧
        d.status = some "error" :=
  claim_C1 _ _ _ _ _ (by intro k; exact ⟨by decide, by decide⟩)

/-! ## C2: terminal stages resolve via a full fetch; fetch counts -/

theorem poll_loop_step_terminal (stages : Nat → StageInfo) (dur : Nat → Nat)
    (apiDirective : Option Directive) (directive_id : String)
    (fuel n elapsed : Nat) (data : Option (List Directive))
    (hlt : elapsed < 380)
    (hterm : (stages n).stage = some "completed" ∨
             (stages n).stage = some "failed") :
    async_poll_directive_loop stages dur apiDirective directive_id
        (fuel + 1) n elapsed data =
      some ⟨(async_get_directive directive_id apiDirective data).result,
            (async_get_directive directive_id apiDirective data).state,
            [.stageFetch n, .directiveFetch],
            (async_get_directive directive_id apiDirective data).pubs,
            elapsed⟩ := by
  rw [async_poll_directive_loop]
  simp only [hlt, if_true, hterm, if_pos]

theorem poll_loop_step_nonterminal (stages : Nat → StageInfo)
    (dur : Nat → Nat) (apiDirective : Option Directive)
    (directive_id : String) (fuel n elapsed : Nat)
    (data : Option (List Directive)) (rest : PollOut)
    (hlt : elapsed < 380)
    (hnt : ¬ ((stages n).stage = some "completed" ∨
              (stages n).stage = some "failed"))
    (hrest : async_poll_directive_loop stages dur apiDirective directive_id
        fuel (n + 1) (elapsed + dur n + 10)
        (pollMerge directive_id (stages n) data).1 = some rest) :
    async_poll_directive_loop stages dur apiDirective directive_id
        (fuel + 1) n elapsed data =
      some ⟨rest.result, rest.state, .stageFetch n :: rest.events,
            (pollMerge directive_id (stages n) data).2 ++ rest.pubs,
            rest.elapsedAtExit⟩ := by
  rw [async_poll_directive_loop]
  simp only [hlt, if_true, hnt, if_false]
  rw [hrest]

theorem async_get_directive_result_isSome (directive_id : String)
    (d : Directive) (data : Option (List Directive)) :
    (async_get_directive directive_id (some d) data).result.isSome := by
  cases data <;> simp [async_get_directive]

/-- C2 (amended): for a stage sequence `[pending, pending, completed]`
returned by successive stage fetches, the poll operation performs exactly
3 stage fetches (the third one observes `completed`) and 1 final
full-directive fetch and then returns the directive; and for both
terminal stages `"completed"` and `"failed"` the loop resolves by fetching
and returning the full directive record rather than raising an error or
returning only the stage payload. -/
theorem claim_C2 :
    (∀ (stages : Nat → StageInfo) (dur : Nat → Nat) (d : Directive)
        (directive_id : String) (data : Option (List Directive)),
      (stages 0).stage = some "pending" →
      (stages 1).stage = some "pending" →
      (stages 2).stage = some "completed" →
      dur 0 + dur 1 + 20 < 380 →
      ∃ out, async_poll_directive stages dur (some d) directive_id data =
          some out ∧
        out.events = [.stageFetch 0, .stageFetch 1, .stageFetch 2,
          .directiveFetch] ∧
        (∃ s, out.result =
          (async_get_directive directive_id (some d) s).result) ∧
        out.result.isSome) ∧
    (∀ (stages : Nat → StageInfo) (dur : Nat → Nat)
        (apiDirective : Option Directive) (directive_id : String)
        (data : Option (List Directive)),
      ((stages 0).stage = some "completed" ∨
       (stages 0).stage = some "failed") →
      ∃ out, async_poll_directive stages dur apiDirective directive_id data =
          some out ∧
        out.events = [.stageFetch 0, .directiveFetch] ∧
        out.result =
          (async_get_directive directive_id apiDirective data).result) := by
  constructor
  · intro stages dur d directive_id data h0 h1 h2 hdur
    have hnt0 : ¬ ((stages 0).stage = some "completed" ∨
        (stages 0).stage = some "failed") := by
      rw [h0]; rintro (h | h) <;> simp at h
    have hnt1 : ¬ ((stages 1).stage = some "completed" ∨
        (stages 1).stage = some "failed") := by
      rw [h1]; rintro (h | h) <;> simp at h
    have hterm2 : (stages 2).stage = some "completed" ∨
        (stages 2).stage = some "failed" := Or.inl h2
    set data1 := (pollMerge directive_id (stages 0) data).1 with hdata1
    set data2 := (pollMerge directive_id (stages 1) data1).1 with hdata2
    have e1lt : 0 + dur 0 + 10 < 380 := by omega
    have e2lt : 0 + dur 0 + 10 + dur 1 + 10 < 380 := by omega
    have h3 := poll_loop_step_terminal stages dur (some d) directive_id
      35 2 (0 + dur 0 + 10 + dur 1 + 10) data2 e2lt hterm2
    have h2' := poll_loop_step_nonterminal stages dur (some d) directive_id
      36 1 (0 + dur 0 + 10) data1 _ e1lt hnt1 h3
    have h1' := poll_loop_step_nonterminal stages dur (some d) directive_id
      37 0 0 data _ (by omega) hnt0 h2'
    have hstart : async_poll_directive stages dur (some d) directive_id
        data = async_poll_directive_loop stages dur (some d) directive_id
        (37 + 1) 0 0 data := rfl
    exact ⟨_, hstart.trans h1', rfl, ⟨data2, rfl⟩,
      async_get_directive_result_isSome directive_id d data2⟩
  · intro stages dur apiDirective directive_id data hterm
    have h := poll_loop_step_terminal stages dur apiDirective directive_id
      37 0 0 data (by omega) hterm
    have hstart : async_poll_directive stages dur apiDirective directive_id
        data = async_poll_directive_loop stages dur apiDirective
        directive_id (37 + 1) 0 0 data := rfl
    exact ⟨_, hstart.trans h, rfl, rfl⟩

/-- Stage-fetch responses realizing the sequence
`[pending, pending, completed]`. -/
def c2Stages : Nat → StageInfo := fun n =>
  if n < 2 then ⟨some "pending", none, none, none, none⟩
  else ⟨some "completed", none, none, none, none⟩

def c2ApiDirective : Directive :=
  ⟨some "d1", some "completed", none, some "turn on the lights", some "Lights",
   some "active", false, []⟩

def countStageFetches (es : List PollEvent) : Nat :=
  es.countP (fun e => match e with
    | .stageFetch _ => true
    | .directiveFetch => false)

def countDirectiveFetches (es : List PollEvent) : Nat :=
  es.countP (fun e => match e with
    | .stageFetch _ => false
    | .directiveFetch => true)

/-- C2 counterexample: on the stage sequence
`[pending, pending, completed]` the poll operation performs 3 stage
fetches, not exactly 2 as the claim states (the fetch that observes
`completed` is itself a stage fetch). -/
theorem claim_C2_counterexample :
    ((async_poll_directive c2Stages (fun _ => 0) (some c2ApiDirective) "d1"
        (some [])).map (fun out => countStageFetches out.events)) = some 3 ∧
    ((async_poll_directive c2Stages (fun _ => 0) (some c2ApiDirective) "d1"
        (some [])).map (fun out => countStageFetches out.events)) ≠ some 2 ∧
    ((async_poll_directive c2Stages (fun _ => 0) (some c2ApiDirective) "d1"
        (some [])).map (fun out => countDirectiveFetches out.events)) =
      some 1 := by
  refine ⟨?_, ?_, ?_⟩ <;> decide

theorem claim_C2_witness :
    (∃ out, async_poll_directive c2Stages (fun _ => 0)
        (some c2ApiDirective) "d1" (some []) = some out ∧
      out.events = [.stageFetch 0, .stageFetch 1, .stageFetch 2,
        .directiveFetch] ∧
      (∃ s, out.result = (async_get_directive "d1" (some c2ApiDirective)
        s).result) ∧
      out.result.isSome) ∧
    (∃ out, async_poll_directive
        (fun _ => ⟨some "failed", some "boom", none, none, some "error"⟩)
        (fun _ => 0) (some c2ApiDirective) "d1" (some []) = some out ∧
      out.events = [.stageFetch 0, .directiveFetch] ∧
      out.result = (async_get_directive "d1" (some c2ApiDirective)
        (some [])).result) :=
  ⟨claim_C2.1 c2Stages (fun _ => 0) c2ApiDirective "d1" (some [])
      (by decide) (by decide) (by decide) (by decide),
   claim_C2.2 _ (fun _ => 0) (some c2ApiDirective) "d1" (some [])
      (Or.inr (by decide))⟩

/-! ## C3: non-terminal merge semantics and full-snapshot publication -/

/-- C3: when the fetched stage is non-terminal and the collection exists,
`{creation_stage, creation_message, status}` is merged into the entry
whose id equals the polled one, other entries are preserved, a new entry
with `status = "creating"` and `discovery = false` is synthesized and
appended when no entry matches, and the mutation publishes exactly one
snapshot that is the entire new collection (a full replacement, not a
patch). -/
theorem claim_C3 (directive_id : String) (info : StageInfo)
    (l : List Directive) :
    ∃ final, pollMerge directive_id info (some l) = (some final, [final]) ∧
      (∀ d ∈ l, d.id = some directive_id →
        ({ d with
            creation_stage := info.stage,
            creation_message := info.stage_message,
            status := info.status } : Directive) ∈ final) ∧
      (∀ d ∈ l, d.id ≠ some directive_id → d ∈ final) ∧
      ((∀ d ∈ l, d.id ≠ some directive_id) →
        final = l ++
          [{ id := some directive_id,
             creation_stage := info.stage,
             creation_message := info.stage_message,
             message := info.message,
             title := info.title,
             status := some "creating",
             discovery := false,
             messages := [] }]) := by
  cases hf : l.any (fun d => decide (d.id = some directive_id)) with
  | true =>
    refine ⟨l.map (fun d =>
        if d.id = some directive_id then
          { d with
              creation_stage := info.stage,
              creation_message := info.stage_message,
              status := info.status }
        else d), by simp [pollMerge, hf], ?_, ?_, ?_⟩
    · intro d hd hdid
      exact List.mem_map.mpr ⟨d, hd, by simp [hdid]⟩
    · intro d hd hdid
      exact List.mem_map.mpr ⟨d, hd, by simp [hdid]⟩
    · intro hnone
      rcases List.any_eq_true.mp hf with ⟨d, hd, hdid⟩
      rw [decide_eq_true_eq] at hdid
      exact absurd hdid (hnone d hd)
  | false =>
    have hnomatch : ∀ d ∈ l, d.id ≠ some directive_id := by
      intro d hd
      have := List.any_eq_false.mp hf d hd
      simpa using this
    have hmapid : l.map (fun d =>
        if d.id = some directive_id then
          { d with
              creation_stage := info.stage,
              creation_message := info.stage_message,
              status := info.status }
        else d) = l := by
      calc l.map (fun d =>
            if d.id = some directive_id then
              { d with
                  creation_stage := info.stage,
                  creation_message := info.stage_message,
                  status := info.status }
            else d)
          = l.map id := List.map_congr_left
            (fun d hd => if_neg (hnomatch d hd))
        _ = l := l.map_id
    refine ⟨l.map (fun d =>
        if d.id = some directive_id then
          { d with
              creation_stage := info.stage,
              creation_message := info.stage_message,
              status := info.status }
        else d) ++
        [{ id := some directive_id,
           creation_stage := info.stage,
           creation_message := info.stage_message,
           message := info.message,
           title := info.title,
           status := some "creating",
           discovery := false,
           messages := [] }], by simp [pollMerge, hf], ?_, ?_, ?_⟩
    · intro d hd hdid
      exact absurd hdid (hnomatch d hd)
    · intro d hd hdid
      exact List.mem_append_left _ (List.mem_map.mpr ⟨d, hd, by simp [hdid]⟩)
    · intro _
      rw [hmapid]

def c3Info : StageInfo :=
  ⟨some "analyzing", some "analyzing your home", some "msg", some "Title",
   some "creating"⟩

def c3Dir : Directive :=
  ⟨some "d1", some "pending", none, some "orig", some "Orig", some "creating",
   false, []⟩

theorem claim_C3_witness :
    ∃ final, pollMerge "d1" c3Info (some [c3Dir]) = (some final, [final]) ∧
      ({ c3Dir with
          creation_stage := c3Info.stage,
          creation_message := c3Info.stage_message,
          status := c3Info.status } : Directive) ∈ final := by
  obtain ⟨final, heq, ha, _, _⟩ := claim_C3 "d1" c3Info [c3Dir]
  exact ⟨final, heq, ha c3Dir (by simp) rfl⟩

/-! ## Scenario Outcome Dispatcher (`__init__.py`, lines 450-560) -/

/-- A scenario outcome `{entity_id, state, attributes}` as read with
`.get` by `_handle_triggered_scenarios` (each key possibly absent;
`attributes` defaults to an empty mapping). -/
structure Outcome where
  entity_id : Option String
  state : Option String
  attributes : List (String × Value)
deriving DecidableEq

/-- A platform service invocation
`hass.services.async_call(domain, service, service_data, blocking=True)`. -/
structure ServiceCall where
  domain : String
  service : String
  service_data : List (String × Value)
deriving DecidableEq

/-- Result of processing one outcome inside the per-outcome try/except:
skipped (missing `entity_id` / null `state`, warning only), `ok` with the
service calls issued, or `failed` with the calls issued before the
exception (source: the alarm/cover/climate branches can leave `service`
unbound, raising `NameError` at the final call; the climate
`set_temperature` call has already been awaited by then). -/
inductive OutcomeResult where
  | skipped
  | ok (calls : List ServiceCall)
  | failed (callsBefore : List ServiceCall)
deriving DecidableEq

/-- The service calls actually executed for one outcome. -/
def OutcomeResult.calls : OutcomeResult → List ServiceCall
  | .skipped => []
  | .ok calls => calls
  | .failed callsBefore => callsBefore

/-- `entity_id.split('.')[0]`: the part of the entity id before the first
dot (the whole id when it contains no dot). -/
def entityDomain (eid : String) : String :=
  (eid.toList.takeWhile (fun c => c ≠ '.')).asString

/-- The per-outcome body of `_handle_triggered_scenarios`
(`__init__.py` lines 459-552), one outcome at a time.  `domain` is the
substring of `entity_id` before the first `.`; the dispatch table and the
order in which extra fields are appended to `service_data` follow the
source line by line. -/
def handle_outcome (o : Outcome) : OutcomeResult :=
  if optFalsy o.entity_id || o.state = none then .skipped
  else
    let eid := o.entity_id.getD ""
    let new_state := (o.state).getD ""
    let attributes := o.attributes
    let domain := entityDomain eid
    let base : List (String × Value) := [("entity_id", Value.str eid)]
    let step : Option String × List (String × Value) × List ServiceCall :=
      if domain = "light" then
        if new_state = "on" then
          let sd := base
          let sd := match attributes.lookup "brightness" with
            | some v => sd ++ [("brightness", v)]
            | none => sd
          let sd := match attributes.lookup "color_temp" with
            | some v => sd ++ [("color_temp", v)]
            | none => sd
          let sd := match attributes.lookup "rgb_color" with
            | some v => sd ++ [("rgb_color", v)]
            | none => sd
          let sd := match attributes.lookup "xy_color" with
            | some v => sd ++ [("xy_color", v)]
            | none => sd
          (some "turn_on", sd, [])
        else (some "turn_off", base, [])
      else if domain = "switch" then
        (some (if new_state = "on" then "turn_on" else "turn_off"), base, [])
      else if domain = "alarm_control_panel" then
        if new_state = "armed_home" ∨ new_state = "armed_away" ∨
            new_state = "armed_night" ∨ new_state = "disarmed" then
          let sd := match attributes.lookup "code" with
            | some v => base ++ [("code", v)]
            | none => base
          (some new_state, sd, [])
        else (none, base, [])
      else if domain = "cover" then
        let service : Option String :=
          if new_state = "open" then some "open_cover"
          else if new_state = "closed" then some "close_cover"
          else if new_state = "stop" then some "stop_cover"
          else none
        match attributes.lookup "position" with
        | some v => (some "set_cover_position", base ++ [("position", v)], [])
        | none => (service, base, [])
      else if domain = "climate" then
        let service : Option String :=
          if new_state = "heat" ∨ new_state = "cool" ∨
              new_state = "auto" ∨ new_state = "off"
          then some "set_hvac_mode" else none
        let sd :=
          if new_state = "heat" ∨ new_state = "cool" ∨
              new_state = "auto" ∨ new_state = "off"
          then base ++ [("hvac_mode", Value.str new_state)] else base
        match attributes.lookup "temperature" with
        | some v =>
          (service, sd,
            [⟨domain, "set_temperature",
              [("entity_id", Value.str eid), ("temperature", v)]⟩])
        | none => (service, sd, [])
      else if domain = "number" then
        (some "set_value", base ++ [("value", Value.str new_state)], [])
      else
        (some (if new_state = "on" then "turn_on" else "turn_off"), base, [])
    match step.1 with
    | none => .failed step.2.2
    | some service => .ok (step.2.2 ++ [⟨domain, service, step.2.1⟩])

/-- The full batch loop over `scenario["outcomes"]`: each outcome is
processed inside its own try/except, so every outcome is handled and the
executed service calls concatenate. -/
def handle_outcomes (outcomes : List Outcome) : List OutcomeResult :=
  outcomes.map handle_outcome

def outcomes_calls (outcomes : List Outcome) : List ServiceCall :=
  (outcomes.map (fun o => (handle_outcome o).calls)).flatten

/-- C4: a climate-domain outcome whose state is one of
`heat, cool, auto, off` and whose attributes contain `temperature`
invokes exactly two platform service calls: `climate.set_temperature`
with the temperature value from the attributes (issued first, inline) and
`climate.set_hvac_mode` with `hvac_mode` equal to the state. -/
theorem claim_C4 (eid s : String) (attrs : List (String × Value)) (v : Value)
    (hdom : entityDomain eid = "climate")
    (hs : s = "heat" ∨ s = "cool" ∨ s = "auto" ∨ s = "off")
    (htemp : attrs.lookup "temperature" = some v) :
    handle_outcome ⟨some eid, some s, attrs⟩ =
      .ok [⟨"climate", "set_temperature",
             [("entity_id", .str eid), ("temperature", v)]⟩,
           ⟨"climate", "set_hvac_mode",
             [("entity_id", .str eid), ("hvac_mode", .str s)]⟩] := by
  have heid : ¬ (eid = "") := by
    intro h
    subst h
    exact absurd hdom (by decide)
  rcases hs with rfl | rfl | rfl | rfl <;>
    simp [handle_outcome, optFalsy, heid, hdom, htemp]

theorem claim_C4_witness :
    handle_outcome ⟨some "climate.hall", some "heat",
        [("temperature", .int 21)]⟩ =
      .ok [⟨"climate", "set_temperature",
             [("entity_id", .str "climate.hall"),
              ("temperature", .int 21)]⟩,
           ⟨"climate", "set_hvac_mode",
             [("entity_id", .str "climate.hall"),
              ("hvac_mode", .str "heat")]⟩] :=
  claim_C4 "climate.hall" "heat" [("temperature", .int 21)] (.int 21)
    (by decide) (Or.inl rfl) (by decide)

/-- C5: an outcome with a missing (or empty) `entity_id` or a null
`state` is skipped with no service call, and each outcome of a batch is
processed independently: whatever one outcome does (skip, succeed, or
fail inside its own try/except), the calls of the batch are the
concatenation of the calls of every outcome, so the remaining outcomes
are still processed. -/
theorem claim_C5 :
    (∀ (pre post : List Outcome) (o : Outcome),
      outcomes_calls (pre ++ o :: post) =
        outcomes_calls pre ++ (handle_outcome o).calls ++
          outcomes_calls post ∧
      handle_outcomes (pre ++ o :: post) =
        handle_outcomes pre ++ handle_outcome o :: handle_outcomes post) ∧
    (∀ o : Outcome,
      (o.entity_id = none ∨ o.entity_id = some "" ∨ o.state = none) →
      handle_outcome o = .skipped ∧ (handle_outcome o).calls = []) := by
  constructor
  · intro pre post o
    constructor
    · simp [outcomes_calls, List.map_append, List.flatten_append,
        List.append_assoc]
    · simp [handle_outcomes]
  · intro o ho
    have hskip : handle_outcome o = .skipped := by
      rcases ho with h | h | h <;>
        simp [handle_outcome, h, optFalsy]
    exact ⟨hskip, by rw [hskip]; rfl⟩

theorem claim_C5_witness :
    handle_outcome ⟨none, some "on", []⟩ = .skipped ∧
    (handle_outcome ⟨none, some "on", []⟩).calls = [] ∧
    outcomes_calls ([⟨some "light.kitchen", some "on", []⟩] ++
        ⟨none, some "on", []⟩ :: [⟨some "switch.fan", some "off", []⟩]) =
      outcomes_calls [⟨some "light.kitchen", some "on", []⟩] ++
        (handle_outcome ⟨none, some "on", []⟩).calls ++
        outcomes_calls [⟨some "switch.fan", some "off", []⟩] :=
  ⟨(claim_C5.2 ⟨none, some "on", []⟩ (Or.inl rfl)).1,
   (claim_C5.2 ⟨none, some "on", []⟩ (Or.inl rfl)).2,
   (claim_C5.1 [⟨some "light.kitchen", some "on", []⟩]
      [⟨some "switch.fan", some "off", []⟩] ⟨none, some "on", []⟩).1⟩

/-! ## State-change publisher (`__init__.py`, lines 278-448) -/

/-- A live Home Assistant entity state as read by the publisher:
`state.state` and `state.attributes`. -/
structure EntityState where
  state : String
  attributes : List (String × Value)
deriving DecidableEq

/-- The fixed attribute allow-list (`ALLOWED_KEYS` in
`_async_update_remote_state`, lines 398-402). -/
def ALLOWED_KEYS : List String :=
  ["brightness", "color_temp", "rgb_color", "xy_color",
   "current_position", "current_temperature", "temperature",
   "hvac_mode", "preset_mode"]

/-- `safe_attributes` of `_async_update_remote_state` (lines 404-407):
keep the pairs whose key is in the allow-list (`str(k)` is the identity
on string keys and string keys are never `None`). -/
def safe_attributes_update (attrs : List (String × Value)) :
    List (String × Value) :=
  attrs.filter (fun kv => ALLOWED_KEYS.contains kv.1)

/-- `safe_attributes` of `_send_bulk_update` (lines 302-309): same
allow-list, written as a literal at that call site. -/
def safe_attributes_bulk (attrs : List (String × Value)) :
    List (String × Value) :=
  attrs.filter (fun kv =>
    ["brightness", "color_temp", "rgb_color", "xy_color",
     "current_position", "current_temperature", "temperature",
     "hvac_mode", "preset_mode"].contains kv.1)

/-- An element of `entities_data`:
`{entity_id, state, attributes}` (lines 311-315 and 409-413). -/
structure EntityData where
  entity_id : String
  state : String
  attributes : List (String × Value)
deriving DecidableEq

/-- The single-entity `entities_data` list built by
`_async_update_remote_state` (lines 409-413). -/
def update_entity_data (entity_id : String) (st : EntityState) :
    List EntityData :=
  [⟨entity_id, st.state, safe_attributes_update st.attributes⟩]

/-- The `entities_data` list built by `_send_bulk_update`
(lines 297-317): one entry per tracked entity id that currently has a
state, in id order. -/
def bulk_entities_data (entity_ids : List String)
    (getState : String → Option EntityState) : List EntityData :=
  entity_ids.filterMap (fun entity_id =>
    (getState entity_id).map (fun st =>
      ⟨entity_id, st.state, safe_attributes_bulk st.attributes⟩))

/-- C6: for both tracked-entity publishes (the single-entity state-change
publish and the initial bulk push), the attributes mapping of each
published entity record contains exactly the allow-listed keys present in
the entity's attributes: a pair is published iff it occurs in the entity
state and its key is in the fixed allow-list. -/
theorem claim_C6 :
    (∀ (entity_id : String) (st : EntityState),
      ∃ d, update_entity_data entity_id st = [d] ∧
        d.entity_id = entity_id ∧ d.state = st.state ∧
        ∀ k v, ((k, v) ∈ d.attributes ↔
          (k, v) ∈ st.attributes ∧ k ∈ ALLOWED_KEYS)) ∧
    (∀ (entity_ids : List String) (getState : String → Option EntityState)
        (entity_id : String) (st : EntityState),
      entity_id ∈ entity_ids → getState entity_id = some st →
      ∃ d ∈ bulk_entities_data entity_ids getState,
        d.entity_id = entity_id ∧ d.state = st.state ∧
        ∀ k v, ((k, v) ∈ d.attributes ↔
          (k, v) ∈ st.attributes ∧ k ∈ ALLOWED_KEYS)) := by
  constructor
  · intro entity_id st
    refine ⟨_, rfl, rfl, rfl, ?_⟩
    intro k v
    simp [safe_attributes_update, List.mem_filter, ALLOWED_KEYS]
  · intro entity_ids getState entity_id st hmem hst
    refine ⟨⟨entity_id, st.state, safe_attributes_bulk st.attributes⟩,
      ?_, rfl, rfl, ?_⟩
    · exact List.mem_filterMap.mpr ⟨entity_id, hmem, by rw [hst]; rfl⟩
    · intro k v
      simp [safe_attributes_bulk, List.mem_filter, ALLOWED_KEYS]

theorem claim_C6_witness :
    (∃ d, update_entity_data "light.kitchen"
        ⟨"on", [("brightness", .int 128), ("friendly_name", .str "K"),
                ("temperature", .int 21)]⟩ = [d] ∧
      d.entity_id = "light.kitchen" ∧ d.state = "on" ∧
      ∀ k v, ((k, v) ∈ d.attributes ↔
        (k, v) ∈ [("brightness", Value.int 128),
                  ("friendly_name", Value.str "K"),
                  ("temperature", Value.int 21)] ∧ k ∈ ALLOWED_KEYS)) ∧
    (∃ d ∈ bulk_entities_data ["sun.sun"]
        (fun _ => some ⟨"above_horizon", [("elevation", .int 40)]⟩),
      d.entity_id = "sun.sun" ∧ d.state = "above_horizon" ∧
      ∀ k v, ((k, v) ∈ d.attributes ↔
        (k, v) ∈ [("elevation", Value.int 40)] ∧ k ∈ ALLOWED_KEYS)) :=
  ⟨claim_C6.1 "light.kitchen"
      ⟨"on", [("brightness", .int 128), ("friendly_name", .str "K"),
              ("temperature", .int 21)]⟩,
   claim_C6.2 ["sun.sun"] (fun _ => some ⟨"above_horizon",
      [("elevation", .int 40)]⟩) "sun.sun"
      ⟨"above_horizon", [("elevation", .int 40)]⟩ (by decide) rfl⟩

/-! ## C8: one-time initial bulk update (`_send_bulk_update`) -/

/-- Result of the POST to `/update-entity-state`: an HTTP status, or an
exception raised anywhere during the request/processing. -/
inductive PostResponse where
  | ok (status : Nat)
  | exn
deriving DecidableEq

/-- Observable outcome of one `_send_bulk_update` call: how many network
requests were performed, the value of the
`initial_bulk_update_performed` flag afterwards, and the `entities_data`
that was built. -/
structure BulkOutcome where
  requests : Nat
  flagAfter : Bool
  entities_data : List EntityData
deriving DecidableEq

/-- `_send_bulk_update` (`__init__.py` lines 278-364).  `entryExists`
models `async_get_entry` finding the config entry; `flagBefore` the
persisted `initial_bulk_update_performed` flag; `response` the outcome of
the POST.  The source returns before any request when the entry is
missing or the flag is set; it sends nothing when `entities_data` is
empty; it sets the flag only after a 200 response, and leaves it
unchanged on a non-200 response or an exception. -/
def send_bulk_update (entryExists : Bool) (flagBefore : Bool)
    (entity_ids : List String) (getState : String → Option EntityState)
    (response : PostResponse) : BulkOutcome :=
  if ¬ entryExists then ⟨0, flagBefore, []⟩
  else if flagBefore then ⟨0, flagBefore, []⟩
  else
    let entities_data := bulk_entities_data entity_ids getState
    if entities_data.isEmpty then ⟨0, flagBefore, entities_data⟩
    else
      match response with
      | .exn => ⟨1, flagBefore, entities_data⟩
      | .ok status =>
        if status ≠ 200 then ⟨1, flagBefore, entities_data⟩
        else ⟨1, true, entities_data⟩

/-- C8: the initial bulk update is one-time and idempotent — with the
flag already true it performs zero network requests; the flag becomes
true only when the entry exists, data was sent, and the POST returned
200; and on any failure (non-200 or exception) the flag is unchanged so
the push retries on the next setup. -/
theorem claim_C8 (entryExists flagBefore : Bool)
    (entity_ids : List String) (getState : String → Option EntityState)
    (response : PostResponse) :
    (flagBefore = true →
      (send_bulk_update entryExists flagBefore entity_ids getState
        response).requests = 0) ∧
    ((send_bulk_update entryExists flagBefore entity_ids getState
        response).flagAfter = true ↔
      (flagBefore = true ∨
        (entryExists = true ∧
         (send_bulk_update entryExists flagBefore entity_ids getState
            response).requests = 1 ∧
         response = .ok 200))) ∧
    (response ≠ .ok 200 →
      (send_bulk_update entryExists flagBefore entity_ids getState
        response).flagAfter = flagBefore) := by
  unfold send_bulk_update
  rcases entryExists with _ | _ <;> rcases flagBefore with _ | _ <;>
    rcases response with status | _ <;>
    by_cases hempty : (bulk_entities_data entity_ids getState).isEmpty <;>
    simp [hempty] <;>
    by_cases h200 : status = 200 <;> simp [h200]

theorem claim_C8_witness :
    ((send_bulk_update true true ["sun.sun"] (fun _ => some ⟨"on", []⟩)
        (.ok 200)).requests = 0) ∧
    ((send_bulk_update true false ["sun.sun"] (fun _ => some ⟨"on", []⟩)
        (.ok 500)).flagAfter = false) :=
  ⟨(claim_C8 true true ["sun.sun"] (fun _ => some ⟨"on", []⟩)
      (.ok 200)).1 rfl,
   (claim_C8 true false ["sun.sun"] (fun _ => some ⟨"on", []⟩)
      (.ok 500)).2.2 (by decide)⟩

/-! ## Encryption helper (`encryption.py`)

`encrypt_data`/`decrypt_data` wrap external library primitives: AES in
CBC mode, PKCS7 padding, JSON and base64.  The AES block permutation, the
JSON codec and the base64 codec are external to this repository, so they
are parameters here, constrained only by the interface properties the
code relies on (a 16-byte block permutation with an inverse, and codecs
that round-trip).  CBC chaining and PKCS7 padding are standard, fully
specified constructions and are modelled concretely so that the length
claims are about real structure.  Bytes are `Nat`s (the proofs never need
the `< 256` bound). -/

/-- Pointwise XOR of two byte strings (CBC whitening). -/
def xorBytes (a b : List Nat) : List Nat :=
  List.zipWith Nat.xor a b

/-- CBC encryption: each 16-byte plaintext block is XORed with the
previous ciphertext block (initially the IV) and passed through the block
cipher.  The fuel argument (instantiated with the plaintext length, an
upper bound on the block count) makes the recursion structural. -/
def cbcEncryptAux (enc : List Nat → List Nat) :
    Nat → List Nat → List Nat → List Nat
  | 0, _, _ => []
  | fuel + 1, prev, pt =>
    if pt.isEmpty then []
    else
      let c := enc (xorBytes (pt.take 16) prev)
      c ++ cbcEncryptAux enc fuel c (pt.drop 16)

def cbcEncrypt (enc : List Nat → List Nat) (iv pt : List Nat) : List Nat :=
  cbcEncryptAux enc pt.length iv pt

/-- CBC decryption: each ciphertext block is passed through the inverse
block cipher and XORed with the previous ciphertext block (initially the
IV). -/
def cbcDecryptAux (dec : List Nat → List Nat) :
    Nat → List Nat → List Nat → List Nat
  | 0, _, _ => []
  | fuel + 1, prev, ct =>
    if ct.isEmpty then []
    else
      let p := xorBytes (dec (ct.take 16)) prev
      p ++ cbcDecryptAux dec fuel (ct.take 16) (ct.drop 16)

def cbcDecrypt (dec : List Nat → List Nat) (iv ct : List Nat) : List Nat :=
  cbcDecryptAux dec ct.length iv ct

/-- PKCS7 padding for a 128-bit block: append `n` copies of the byte `n`,
where `n = 16 - len % 16` (always between 1 and 16). -/
def pkcs7pad (bs : List Nat) : List Nat :=
  bs ++ List.replicate (16 - bs.length % 16) (16 - bs.length % 16)

/-- PKCS7 unpadding: read the last byte `n`, check `1 ≤ n ≤ 16`, that at
least `n` bytes are present and that the last `n` bytes all equal `n`;
strip them.  Any violation is a padding error (`none`). -/
def pkcs7unpad (bs : List Nat) : Option (List Nat) :=
  match bs.getLast? with
  | none => none
  | some n =>
    if 1 ≤ n ∧ n ≤ 16 ∧ n ≤ bs.length ∧
        (bs.drop (bs.length - n)).all (fun b => b = n) then
      some (bs.take (bs.length - n))
    else none

/-- The byte string assembled by `encrypt_data` before base64 transport
(`encryption.py` lines 28-42): the random 16-byte IV followed by the CBC
ciphertext of the PKCS7-padded serialized data.  `ser` stands for
`json.dumps(...).encode()`, `enc` for the keyed AES block permutation,
and `iv` for `os.urandom(16)`. -/
def encrypt_bytes (enc : List Nat → List Nat) (ser : α → List Nat)
    (iv : List Nat) (data : α) : List Nat :=
  iv ++ cbcEncrypt enc iv (pkcs7pad (ser data))

/-- `encrypt_data` (`encryption.py` lines 25-46): base64-encode the IV
plus ciphertext.  `b64enc` stands for `base64.b64encode`. -/
def encrypt_data (enc : List Nat → List Nat) (ser : α → List Nat)
    (b64enc : List Nat → β) (iv : List Nat) (data : α) : β :=
  b64enc (encrypt_bytes enc ser iv data)

/-- `decrypt_data` (`encryption.py` lines 48-77): base64-decode, split
off the first 16 bytes as the IV, CBC-decrypt the rest, unpad, and parse.
`deser` stands for `json.loads`; padding or parse failures raise in the
source and are `none` here. -/
def decrypt_data (dec : List Nat → List Nat) (deser : List Nat → Option α)
    (b64dec : β → List Nat) (encrypted_data : β) : Option α :=
  let encrypted_bytes := b64dec encrypted_data
  let iv := encrypted_bytes.take 16
  let ciphertext := encrypted_bytes.drop 16
  let decrypted_padded_data := cbcDecrypt dec iv ciphertext
  (pkcs7unpad decrypted_padded_data).bind deser

/-- `should_encrypt` (`encryption.py` lines 79-82): the subscription-tier
comparison is commented out in the source; it returns `True`
unconditionally. -/
def should_encrypt (_subscription_type : Option String) : Bool :=
  true

theorem xorBytes_cancel (b : List Nat) :
    ∀ p : List Nat, b.length ≤ p.length → xorBytes (xorBytes b p) p = b := by
  induction b with
  | nil => intro p _; rfl
  | cons x xs ih =>
    intro p h
    match p with
    | [] => simp at h
    | y :: ys =>
      simp only [xorBytes, List.zipWith_cons_cons] at *
      have hcan : Nat.xor (Nat.xor x y) y = x := Nat.xor_cancel_right y x
      rw [hcan, ih ys (by simpa using h)]

theorem cbcEncryptAux_congr (enc : List Nat → List Nat) :
    ∀ (f g : Nat) (prev pt : List Nat), pt.length ≤ f → pt.length ≤ g →
      cbcEncryptAux enc f prev pt = cbcEncryptAux enc g prev pt := by
  intro f
  induction f with
  | zero =>
    intro g prev pt hf _
    have hpt : pt = [] := List.length_eq_zero.mp (by omega)
    subst hpt
    cases g <;> simp [cbcEncryptAux]
  | succ f ih =>
    intro g prev pt hf hg
    by_cases hpt : pt = []
    · subst hpt
      cases g <;> simp [cbcEncryptAux]
    · have hlen : 0 < pt.length := List.length_pos.mpr hpt
      match g with
      | 0 => omega
      | g + 1 =>
        have hne : pt.isEmpty = false := by simp [hpt]
        simp only [cbcEncryptAux, hne, Bool.false_eq_true, if_false]
        congr 1
        exact ih g _ _ (by simp [List.length_drop]; omega)
          (by simp [List.length_drop]; omega)

theorem cbcDecryptAux_congr (dec : List Nat → List Nat) :
    ∀ (f g : Nat) (prev ct : List Nat), ct.length ≤ f → ct.length ≤ g →
      cbcDecryptAux dec f prev ct = cbcDecryptAux dec g prev ct := by
  intro f
  induction f with
  | zero =>
    intro g prev ct hf _
    have hct : ct = [] := List.length_eq_zero.mp (by omega)
    subst hct
    cases g <;> simp [cbcDecryptAux]
  | succ f ih =>
    intro g prev ct hf hg
    by_cases hct : ct = []
    · subst hct
      cases g <;> simp [cbcDecryptAux]
    · have hlen : 0 < ct.length := List.length_pos.mpr hct
      match g with
      | 0 => omega
      | g + 1 =>
        have hne : ct.isEmpty = false := by simp [hct]
        simp only [cbcDecryptAux, hne, Bool.false_eq_true, if_false]
        congr 1
        exact ih g _ _ (by simp [List.length_drop]; omega)
          (by simp [List.length_drop]; omega)

theorem cbcEncrypt_cons (enc : List Nat → List Nat) (prev b rest : List Nat)
    (hb : b.length = 16) :
    cbcEncrypt enc prev (b ++ rest) =
      enc (xorBytes b prev) ++
        cbcEncrypt enc (enc (xorBytes b prev)) rest := by
  have hne : (b ++ rest).isEmpty = false := by
    cases b with
    | nil => simp at hb
    | cons x xs => rfl
  unfold cbcEncrypt
  rw [show (b ++ rest).length = (15 + rest.length) + 1 by simp [hb]; omega]
  simp only [cbcEncryptAux, hne, Bool.false_eq_true, if_false]
  rw [List.take_left' hb, List.drop_left' hb]
  congr 1
  exact cbcEncryptAux_congr enc _ _ _ _ (by omega) (le_refl _)

theorem cbcDecrypt_cons (dec : List Nat → List Nat) (prev c rest : List Nat)
    (hc : c.length = 16) :
    cbcDecrypt dec prev (c ++ rest) =
      xorBytes (dec c) prev ++ cbcDecrypt dec c rest := by
  have hne : (c ++ rest).isEmpty = false := by
    cases c with
    | nil => simp at hc
    | cons x xs => rfl
  unfold cbcDecrypt
  rw [show (c ++ rest).length = (15 + rest.length) + 1 by simp [hc]; omega]
  simp only [cbcDecryptAux, hne, Bool.false_eq_true, if_false]
  rw [List.take_left' hc, List.drop_left' hc]
  congr 1
  exact cbcDecryptAux_congr dec _ _ _ _ (by omega) (le_refl _)

theorem cbc_roundtrip (enc dec : List Nat → List Nat)
    (henc : ∀ b, b.length = 16 → (enc b).length = 16)
    (hinv : ∀ b, b.length = 16 → dec (enc b) = b) :
    ∀ (k : Nat) (pt prev : List Nat), pt.length = 16 * k →
      prev.length = 16 →
      cbcDecrypt dec prev (cbcEncrypt enc prev pt) = pt := by
  intro k
  induction k with
  | zero =>
    intro pt prev hpt _
    have : pt = [] := List.length_eq_zero.mp (by omega)
    subst this
    rfl
  | succ k ih =>
    intro pt prev hpt hprev
    obtain ⟨b, r, rfl, hb, hr⟩ :
        ∃ b r, pt = b ++ r ∧ b.length = 16 ∧ r.length = 16 * k := by
      refine ⟨pt.take 16, pt.drop 16, (List.take_append_drop 16 pt).symm,
        ?_, ?_⟩ <;> simp [List.length_take, List.length_drop] <;> omega
    have hxor : (xorBytes b prev).length = 16 := by
      simp [xorBytes, hb, hprev]
    have hcl : (enc (xorBytes b prev)).length = 16 := henc _ hxor
    rw [cbcEncrypt_cons enc prev b r hb, cbcDecrypt_cons dec prev _ _ hcl,
      hinv _ hxor, xorBytes_cancel b prev (by omega),
      ih r _ hr hcl]

theorem cbcEncrypt_length (enc : List Nat → List Nat)
    (henc : ∀ b, b.length = 16 → (enc b).length = 16) :
    ∀ (k : Nat) (pt prev : List Nat), pt.length = 16 * k →
      prev.length = 16 →
      (cbcEncrypt enc prev pt).length = 16 * k := by
  intro k
  induction k with
  | zero =>
    intro pt prev hpt _
    have : pt = [] := List.length_eq_zero.mp (by omega)
    subst this
    rfl
  | succ k ih =>
    intro pt prev hpt hprev
    obtain ⟨b, r, rfl, hb, hr⟩ :
        ∃ b r, pt = b ++ r ∧ b.length = 16 ∧ r.length = 16 * k := by
      refine ⟨pt.take 16, pt.drop 16, (List.take_append_drop 16 pt).symm,
        ?_, ?_⟩ <;> simp [List.length_take, List.length_drop] <;> omega
    have hxor : (xorBytes b prev).length = 16 := by
      simp [xorBytes, hb, hprev]
    have hcl : (enc (xorBytes b prev)).length = 16 := henc _ hxor
    rw [cbcEncrypt_cons enc prev b r hb]
    simp only [List.length_append, hcl, ih r _ hr hcl]
    omega

theorem pkcs7pad_length (bs : List Nat) :
    (pkcs7pad bs).length = bs.length + (16 - bs.length % 16) := by
  simp [pkcs7pad]

theorem pkcs7pad_mult (bs : List Nat) :
    ∃ k, (pkcs7pad bs).length = 16 * k ∧ 0 < k := by
  refine ⟨(pkcs7pad bs).length / 16, ?_, ?_⟩ <;>
    rw [pkcs7pad_length] <;> omega

theorem getLast?_replicate_pos (n x : Nat) (h : 0 < n) :
    (List.replicate n x).getLast? = some x := by
  induction n with
  | zero => omega
  | succ n ih =>
    match n, ih with
    | 0, _ => rfl
    | m + 1, ih =>
      rw [List.replicate_succ, List.replicate_succ,
        List.getLast?_cons_cons, ← List.replicate_succ]
      exact ih (by omega)

theorem pkcs7unpad_pad (bs : List Nat) :
    pkcs7unpad (pkcs7pad bs) = some bs := by
  have hmod : bs.length % 16 < 16 := Nat.mod_lt _ (by omega)
  have hn1 : 1 ≤ 16 - bs.length % 16 := by omega
  have hrepne : List.replicate (16 - bs.length % 16)
      (16 - bs.length % 16) ≠ [] := by
    intro h
    have := congrArg List.length h
    simp at this
    omega
  unfold pkcs7unpad pkcs7pad
  rw [List.getLast?_append_of_ne_nil _ hrepne,
    getLast?_replicate_pos _ _ (by omega)]
  dsimp only
  have hlen : (bs ++ List.replicate (16 - bs.length % 16)
      (16 - bs.length % 16)).length =
      bs.length + (16 - bs.length % 16) := by simp
  rw [hlen]
  have hsub : bs.length + (16 - bs.length % 16) - (16 - bs.length % 16) =
      bs.length := by omega
  rw [hsub]
  have hall : ((bs ++ List.replicate (16 - bs.length % 16)
      (16 - bs.length % 16)).drop bs.length).all
      (fun b => decide (b = 16 - bs.length % 16)) = true := by
    rw [List.drop_left' rfl]
    simp [List.all_eq_true, List.mem_replicate]
  rw [if_pos ⟨hn1, by omega, by omega, hall⟩, List.take_left' rfl]

/-- C7: for every serializable value `X` and every valid key (modelled as
a 16-byte block permutation `enc` with inverse `dec`, the pair the
library derives from a valid 32-byte base64-encoded AES key),
`decrypt_data (encrypt_data X) = X`; the byte string produced before
base64 encoding has length `16 + ciphertext_len`; and `ciphertext_len` is
a positive multiple of 16. -/
theorem claim_C7 {α β : Type} (enc dec : List Nat → List Nat)
    (ser : α → List Nat) (deser : List Nat → Option α)
    (b64enc : List Nat → β) (b64dec : β → List Nat) (iv : List Nat) (X : α)
    (henc : ∀ b, b.length = 16 → (enc b).length = 16)
    (hinv : ∀ b, b.length = 16 → dec (enc b) = b)
    (hser : deser (ser X) = some X)
    (hb64 : ∀ bs, b64dec (b64enc bs) = bs)
    (hiv : iv.length = 16) :
    decrypt_data dec deser b64dec (encrypt_data enc ser b64enc iv X) =
      some X ∧
    (encrypt_bytes enc ser iv X).length =
      16 + (cbcEncrypt enc iv (pkcs7pad (ser X))).length ∧
    (cbcEncrypt enc iv (pkcs7pad (ser X))).length % 16 = 0 ∧
    0 < (cbcEncrypt enc iv (pkcs7pad (ser X))).length := by
  obtain ⟨k, hk, hkpos⟩ := pkcs7pad_mult (ser X)
  have hctlen := cbcEncrypt_length enc henc k (pkcs7pad (ser X)) iv hk hiv
  refine ⟨?_, ?_, ?_, ?_⟩
  · unfold decrypt_data encrypt_data encrypt_bytes
    rw [hb64]
    dsimp only
    rw [List.take_left' hiv, List.drop_left' hiv,
      cbc_roundtrip enc dec henc hinv k _ iv hk hiv, pkcs7unpad_pad]
    simpa using hser
  · simp [encrypt_bytes, hiv]
  · rw [hctlen]
    omega
  · rw [hctlen]
    omega

theorem claim_C7_witness :
    decrypt_data (fun b => b) (fun bs => some bs) (fun s => s)
        (encrypt_data (fun b => b) (fun x : List Nat => x) (fun bs => bs)
          (List.replicate 16 0) [1, 2, 3]) = some [1, 2, 3] ∧
    (encrypt_bytes (fun b => b) (fun x : List Nat => x)
        (List.replicate 16 0) [1, 2, 3]).length =
      16 + (cbcEncrypt (fun b => b) (List.replicate 16 0)
        (pkcs7pad [1, 2, 3])).length ∧
    (cbcEncrypt (fun b => b) (List.replicate 16 0)
      (pkcs7pad [1, 2, 3])).length % 16 = 0 ∧
    0 < (cbcEncrypt (fun b => b) (List.replicate 16 0)
      (pkcs7pad [1, 2, 3])).length :=
  claim_C7 (fun b => b) (fun b => b) (fun x : List Nat => x)
    (fun bs => some bs) (fun bs => bs) (fun s => s)
    (List.replicate 16 0) [1, 2, 3]
    (fun _ h => h) (fun _ _ => rfl) rfl (fun _ => rfl) (by simp)

/-! ## Webhook handler (`webhook.py`, `async_handle_webhook`) -/

/-- The config-entry fields the webhook handler reads. -/
structure EntryData where
  webhook_secret : Option String
  subscription_type : Option String
  encryption_key : Option String
deriving DecidableEq

/-- The decrypted (or plain) service-call payload: either not a dict
(structure error) or a dict whose fields are read with `.get`. -/
inductive DecPayload where
  | notDict
  | dict (domain : Option String) (service : Option String)
      (entity_id : Option String) (service_data : List (String × Value))
deriving DecidableEq

/-- Parsed request body: `empty` models an empty byte payload; `json`
is `none` when the body is not valid JSON, and otherwise carries the two
keys the handler reads (`encrypted_payload` / `service_call`; a missing
or empty-dict `service_call` is modelled as `none`, both being falsy). -/
structure ReqData where
  encrypted_payload : Option String
  service_call : Option DecPayload
deriving DecidableEq

structure RequestBody where
  empty : Bool
  json : Option ReqData
deriving DecidableEq

/-- Side effects the handler can perform, in order. -/
inductive Effect where
  | readPayload
  | decrypt
  | callService (domain service : String) (data : List (String × Value))
deriving DecidableEq

/-- The distinct exits of `async_handle_webhook`. -/
inductive WebhookResponse where
  | configNotFound
  | unauthorized
  | emptyPayload
  | invalidJson
  | encryptionKeyMissing
  | missingEncryptedPayload
  | decryptFailed
  | missingServiceCall
  | invalidStructure
  | missingDomainService
  | serviceNotFound
  | success
  | serviceError
deriving DecidableEq

/-- HTTP status of each exit (`webhook.py`). -/
def WebhookResponse.status : WebhookResponse → Nat
  | .configNotFound => 500
  | .unauthorized => 401
  | .emptyPayload => 400
  | .invalidJson => 400
  | .encryptionKeyMissing => 500
  | .missingEncryptedPayload => 400
  | .decryptFailed => 400
  | .missingServiceCall => 400
  | .invalidStructure => 400
  | .missingDomainService => 400
  | .serviceNotFound => 400
  | .success => 200
  | .serviceError => 500

/-- The common tail of the handler (from the `isinstance` check at
`webhook.py` line 136 to the service call): validate the structure,
require `domain` and `service`, merge a top-level `entity_id` into
`service_data` when it is not already present, check the service exists,
and call it. -/
def webhook_dispatch (scd : DecPayload) (effs : List Effect)
    (hasService : String → String → Bool) (callOk : Bool) :
    WebhookResponse × List Effect :=
  match scd with
  | .notDict => (.invalidStructure, effs)
  | .dict dom svc eid sd =>
    if optFalsy dom || optFalsy svc then (.missingDomainService, effs)
    else
      let sd :=
        if ¬ optFalsy eid ∧ sd.lookup "entity_id" = none then
          sd ++ [("entity_id", Value.str (eid.getD ""))]
        else sd
      if ¬ hasService (dom.getD "") (svc.getD "") then
        (.serviceNotFound, effs)
      else if callOk then
        (.success, effs ++ [.callService (dom.getD "") (svc.getD "") sd])
      else
        (.serviceError, effs ++ [.callService (dom.getD "") (svc.getD "") sd])

/-- `async_handle_webhook` (`webhook.py` lines 62-192).  `entry` models
`async_get_entry` (missing entry: 500); the secret comparison mirrors
`if not expected_secret or not received_secret or received_secret !=
expected_secret`; `decryptFn` models `decrypt_data` on the encrypted
payload string (`none` = raised); `hasService` and `callOk` model the
Home Assistant service registry and the service call outcome. -/
def async_handle_webhook (entry : Option EntryData)
    (receivedSecret : Option String) (body : RequestBody)
    (decryptFn : String → Option DecPayload)
    (hasService : String → String → Bool) (callOk : Bool) :
    WebhookResponse × List Effect :=
  match entry with
  | none => (.configNotFound, [])
  | some e =>
    if optFalsy e.webhook_secret || optFalsy receivedSecret ||
        receivedSecret ≠ e.webhook_secret then
      (.unauthorized, [])
    else
      if body.empty then (.emptyPayload, [.readPayload])
      else
        match body.json with
        | none => (.invalidJson, [.readPayload])
        | some request_data =>
          if should_encrypt e.subscription_type then
            if optFalsy e.encryption_key then
              (.encryptionKeyMissing, [.readPayload])
            else if optFalsy request_data.encrypted_payload then
              (.missingEncryptedPayload, [.readPayload])
            else
              match decryptFn (request_data.encrypted_payload.getD "") with
              | none => (.decryptFailed, [.readPayload, .decrypt])
              | some scd =>
                webhook_dispatch scd [.readPayload, .decrypt]
                  hasService callOk
          else
            match request_data.service_call with
            | none => (.missingServiceCall, [.readPayload])
            | some scd =>
              webhook_dispatch scd [.readPayload] hasService callOk

/-- C9: a webhook request whose `X-Webhook-Secret` header is missing or
differs from the persisted secret is answered with 401 and performs no
side effect at all — the payload is never read, nothing is decrypted, no
service is dispatched — regardless of the body. -/
theorem claim_C9 (e : EntryData) (receivedSecret : Option String)
    (body : RequestBody) (decryptFn : String → Option DecPayload)
    (hasService : String → String → Bool) (callOk : Bool)
    (hbad : receivedSecret = none ∨ receivedSecret ≠ e.webhook_secret) :
    async_handle_webhook (some e) receivedSecret body decryptFn
        hasService callOk = (.unauthorized, []) ∧
    (async_handle_webhook (some e) receivedSecret body decryptFn
        hasService callOk).1.status = 401 := by
  have hcond : (optFalsy e.webhook_secret || optFalsy receivedSecret ||
      receivedSecret ≠ e.webhook_secret) = true := by
    rcases hbad with rfl | hne
    · simp [optFalsy]
    · simp [hne]
  have hmain : async_handle_webhook (some e) receivedSecret body decryptFn
      hasService callOk = (.unauthorized, []) := by
    simp only [async_handle_webhook]
    rw [if_pos hcond]
  exact ⟨hmain, by rw [hmain]; rfl⟩

theorem claim_C9_witness :
    async_handle_webhook
        (some ⟨some "secret-1", some "pro", some "key"⟩)
        (some "wrong")
        ⟨false, some ⟨some "payload", none⟩⟩
        (fun _ => some (.dict (some "light") (some "turn_on") none []))
        (fun _ _ => true) true = (.unauthorized, []) ∧
    (async_handle_webhook
        (some ⟨some "secret-1", some "pro", some "key"⟩)
        (some "wrong")
        ⟨false, some ⟨some "payload", none⟩⟩
        (fun _ => some (.dict (some "light") (some "turn_on") none []))
        (fun _ _ => true) true).1.status = 401 :=
  claim_C9 ⟨some "secret-1", some "pro", some "key"⟩ (some "wrong")
    ⟨false, some ⟨some "payload", none⟩⟩
    (fun _ => some (.dict (some "light") (some "turn_on") none []))
    (fun _ _ => true) true (Or.inr (by decide))

/-! ## C10: encryption is unconditional; basic-tier webhook schema dead;
single-entity publish mislabels its payload -/

/-- The `entities` field of an `/update-entity-state` payload: either the
plain list of entity records or the base64 ciphertext string that
`encrypt_data` turns it into. -/
inductive EntitiesField (β : Type) where
  | plain (l : List EntityData)
  | blob (b : β)

/-- The payload built by `_async_update_remote_state`
(`__init__.py` lines 409-421). -/
structure UpdateStatePayload (β : Type) where
  entities_data : EntitiesField β
  encrypted : Bool

/-- `_async_update_remote_state` payload assembly (lines 409-421): build
the single-entity list, encrypt it when `should_encrypt` says so, and set
the payload's `encrypted` flag to the literal `False` of line 420. -/
def update_state_payload (enc : List Nat → List Nat)
    (ser : List EntityData → List Nat) (b64enc : List Nat → β)
    (iv : List Nat) (subscription_type : Option String)
    (entity_id : String) (st : EntityState) : UpdateStatePayload β :=
  let entities_data : EntitiesField β :=
    .plain (update_entity_data entity_id st)
  let entities_data :=
    if should_encrypt subscription_type then
      .blob (encrypt_data enc ser b64enc iv (update_entity_data entity_id st))
    else entities_data
  ⟨entities_data, false⟩

theorem webhook_dispatch_ne_missingServiceCall (scd : DecPayload)
    (effs : List Effect) (hasService : String → String → Bool)
    (callOk : Bool) :
    (webhook_dispatch scd effs hasService callOk).1 ≠
      .missingServiceCall := by
  cases scd with
  | notDict => simp [webhook_dispatch]
  | dict dom svc eid sd =>
    simp only [webhook_dispatch]
    split
    · simp
    · split
      · simp
      · split <;> simp

/-- C10 (implicit behaviour): `should_encrypt` returns true for every
subscription type (the tier comparison is commented out), so the webhook
handler always takes the encrypted branch — it requires an
`encrypted_payload` field and answers 400 when it is absent — and the
plain `service_call` schema is unreachable (no run ever produces its
"missing service_call" rejection); additionally, the single-entity
publish sets the payload's `encrypted` flag to `false` even though its
data field is the encrypted blob. -/
theorem claim_C10 :
    (∀ t : Option String, should_encrypt t = true) ∧
    (∀ (e : EntryData) (receivedSecret : Option String)
        (body : RequestBody) (rd : ReqData)
        (decryptFn : String → Option DecPayload)
        (hasService : String → String → Bool) (callOk : Bool),
      optFalsy e.webhook_secret = false →
      receivedSecret = e.webhook_secret →
      body.empty = false → body.json = some rd →
      optFalsy e.encryption_key = false →
      optFalsy rd.encrypted_payload = true →
      async_handle_webhook (some e) receivedSecret body decryptFn
          hasService callOk = (.missingEncryptedPayload, [.readPayload]) ∧
      (async_handle_webhook (some e) receivedSecret body decryptFn
          hasService callOk).1.status = 400) ∧
    (∀ (entry : Option EntryData) (receivedSecret : Option String)
        (body : RequestBody) (decryptFn : String → Option DecPayload)
        (hasService : String → String → Bool) (callOk : Bool),
      (async_handle_webhook entry receivedSecret body decryptFn
        hasService callOk).1 ≠ .missingServiceCall) ∧
    (∀ (β : Type) (enc : List Nat → List Nat)
        (ser : List EntityData → List Nat) (b64enc : List Nat → β)
        (iv : List Nat) (subscription_type : Option String)
        (entity_id : String) (st : EntityState),
      (update_state_payload enc ser b64enc iv subscription_type
        entity_id st).encrypted = false ∧
      (update_state_payload enc ser b64enc iv subscription_type
        entity_id st).entities_data =
        .blob (encrypt_data enc ser b64enc iv
          (update_entity_data entity_id st))) := by
  refine ⟨fun _ => rfl, ?_, ?_, ?_⟩
  · intro e receivedSecret body rd decryptFn hasService callOk
      hsec hrecv hempty hjson hkey hmissing
    have hcond : (optFalsy e.webhook_secret || optFalsy receivedSecret ||
        decide (receivedSecret ≠ e.webhook_secret)) = false := by
      rw [hrecv]
      simp [hsec]
    have hmain : async_handle_webhook (some e) receivedSecret body
        decryptFn hasService callOk =
        (.missingEncryptedPayload, [.readPayload]) := by
      simp only [async_handle_webhook]
      rw [if_neg (by rw [hcond]; simp), if_neg (by rw [hempty]; simp),
        hjson]
      simp only [should_encrypt, if_pos]
      rw [if_neg (by rw [hkey]; simp), if_pos hmissing]
    exact ⟨hmain, by rw [hmain]; rfl⟩
  · intro entry receivedSecret body decryptFn hasService callOk
    cases entry with
    | none => simp [async_handle_webhook]
    | some e =>
      simp only [async_handle_webhook]
      split
      · simp
      · split
        · simp
        · split
          · simp
          · simp only [should_encrypt, if_pos]
            split
            · simp
            · split
              · simp
              · split
                · simp
                · exact webhook_dispatch_ne_missingServiceCall _ _ _ _
  · intro β enc ser b64enc iv subscription_type entity_id st
    exact ⟨rfl, rfl⟩

theorem claim_C10_witness :
    should_encrypt (some "basic") = true ∧
    async_handle_webhook
        (some ⟨some "s1", some "basic", some "key"⟩) (some "s1")
        ⟨false, some ⟨none, some (.dict (some "light") (some "turn_on")
          none [])⟩⟩
        (fun _ => none) (fun _ _ => true) true =
      (.missingEncryptedPayload, [.readPayload]) ∧
    (async_handle_webhook (some ⟨some "s1", some "basic", some "key"⟩)
        (some "s1")
        ⟨false, some ⟨none, some (.dict (some "light") (some "turn_on")
          none [])⟩⟩
        (fun _ => none) (fun _ _ => true) true).1 ≠
      .missingServiceCall ∧
    (update_state_payload (fun b => b) (fun _ => []) (fun bs => bs)
        (List.replicate 16 0) (some "basic") "light.kitchen"
        ⟨"on", []⟩).encrypted = false :=
  ⟨claim_C10.1 (some "basic"),
   (claim_C10.2.1 ⟨some "s1", some "basic", some "key"⟩ (some "s1")
      ⟨false, some ⟨none, some (.dict (some "light") (some "turn_on")
        none [])⟩⟩
      ⟨none, some (.dict (some "light") (some "turn_on") none [])⟩
      (fun _ => none) (fun _ _ => true) true
      rfl rfl rfl rfl rfl rfl).1,
   claim_C10.2.2.1 (some ⟨some "s1", some "basic", some "key"⟩)
      (some "s1")
      ⟨false, some ⟨none, some (.dict (some "light") (some "turn_on")
        none [])⟩⟩
      (fun _ => none) (fun _ _ => true) true,
   (claim_C10.2.2.2 (List Nat) (fun b => b) (fun _ => []) (fun bs => bs)
      (List.replicate 16 0) (some "basic") "light.kitchen"
      ⟨"on", []⟩).1⟩

end Direktive
